import Mathlib

/-
Verification of the room-segmentation app (src/app_hq.py).

Shallow embedding conventions:
* Python `float` arithmetic is modelled with exact rationals (ℚ); `int(x)`
  on a nonnegative value is modelled with the floor function.
* Text (the remote response, user-visible messages) is modelled as
  `List Char`; Python string slicing `s[:100]` is `List.take 100`.
* External effects (the remote `generate_content` call, `json.loads`,
  the SAM segmentation call) are parameters of the embedded functions:
  each is an `Except` value or function describing one behaviour of the
  external world, so theorems quantify over every behaviour.  The
  segmentation result type is an abstract type parameter `σ`.
* A caught Python exception is modelled as the `.error` branch carrying
  `str(e)` as a `List Char`.
-/

namespace RoomSeg

/-- JSON values as produced by `json.loads`.  Numbers are modelled as ℚ
(Python ints and floats under exact arithmetic). -/
inductive Json where
  | null
  | bool (b : Bool)
  | num (q : ℚ)
  | str (s : String)
  | arr (elems : List Json)
  | obj (fields : List (String × Json))

/-- Dictionary lookup on a parsed JSON object (`item["k"]` / `item.get("k")`). -/
def lookupField : List (String × Json) → String → Option Json
  | [], _ => none
  | (k, v) :: rest, key => if k = key then some v else lookupField rest key

/-- Index of the first occurrence of `c`, if any. -/
def firstIdx (c : Char) : List Char → Option Nat
  | [] => none
  | x :: xs => if x = c then some 0 else (firstIdx c xs).map (· + 1)

/-- Index of the last occurrence of `c`, if any. -/
def lastIdx (c : Char) (cs : List Char) : Option Nat :=
  (firstIdx c cs.reverse).map (fun i => cs.length - 1 - i)

/-- Embedding of `re.search(r'\[.*\]', text, re.DOTALL)` (src/app_hq.py line 105):
the leftmost-greedy match runs from the first `[` that is followed by a
`]` to the last `]` of the whole text; `extractSpan` returns
`match.group(0)`, or `none` when the regex does not match. -/
def extractSpan (cs : List Char) : Option (List Char) :=
  match firstIdx '[' cs, lastIdx ']' cs with
  | some i, some j => if i < j then some ((cs.drop i).take (j + 1 - i)) else none
  | _, _ => none

/-- The string `str(KeyError('box_2d'))`. -/
def msgKeyError : List Char := "'box_2d'".toList

/-- Representative message for the `ValueError`/`TypeError` raised when
`item["box_2d"]` is not a list of four numbers (unpacking or the later
arithmetic fails).  The corner case of Python booleans inside `box_2d`
(arithmetically ints) is not modelled. -/
def msgBadBox : List Char := "cannot unpack box_2d".toList

/-- Representative message for the `TypeError` raised by `item["box_2d"]`
when `item` is not a dict. -/
def msgBadItem : List Char := "item is not a dict".toList

/-- Representative message for the `TypeError` raised by
`for item in json_data` when the parsed JSON is not iterable. -/
def msgNotIterable : List Char := "object is not iterable".toList

/-- Prefix of the parse-failure message of line 107. -/
def msgNoJsonPrefix : List Char := "JSONが見つかりませんでした。応答: ".toList

/-- The trailing `...` of the parse-failure message of line 107. -/
def msgDots : List Char := "...".toList

/-- The empty-detection message of line 129. -/
def msgNoDetection : List Char := "検出対象なし".toList

/-- The success message of line 127, `f"成功 (Model: ...)"` with the model
name interpolated. -/
def msgSuccess (modelName : List Char) : List Char :=
  "成功 (Model: ".toList ++ modelName ++ ")".toList

/-- The validation message of line 147. -/
def msgValidation : List Char := "APIキーとモデルを選択してください".toList

/-- The `f"エラー: ..."` prefix of line 158. -/
def msgErrorPrefix : List Char := "エラー: ".toList

/-- The loop body of lines 114-120: read `item["box_2d"]` (KeyError when
missing, TypeError when `item` is not a dict), unpack it as
`[ymin, xmin, ymax, xmax]` and convert to the pixel box
`[xmin/1000*w, ymin/1000*h, xmax/1000*w, ymax/1000*h]`. -/
def itemBox (w h : ℚ) : Json → Except (List Char) (List ℚ)
  | .obj fields =>
    match lookupField fields "box_2d" with
    | none => .error msgKeyError
    | some (.arr [.num ymin, .num xmin, .num ymax, .num xmax]) =>
        .ok [xmin / 1000 * w, ymin / 1000 * h, xmax / 1000 * w, ymax / 1000 * h]
    | some _ => .error msgBadBox
  | _ => .error msgBadItem

/-- Line 122, `item.get("label", "Object")`.  (In the pipeline this is
only reached for dict items, since `item["box_2d"]` is evaluated first.) -/
def labelOf : Json → Json
  | .obj fields => (lookupField fields "label").getD (.str "Object")
  | _ => .str "Object"

/-- Embedding of `for item in json_data` (line 113): Python iterates a list's elements,
a dict's keys, a string's characters, and raises TypeError otherwise. -/
def iterItems : Json → Except (List Char) (List Json)
  | .arr elems => .ok elems
  | .obj fields => .ok (fields.map fun p => Json.str p.1)
  | .str s => .ok (s.data.map fun c => Json.str (String.mk [c]))
  | _ => .error msgNotIterable

/-- The whole loop of lines 111-122: accumulate `bboxes` and `labels` in
order; the first exception aborts everything. -/
def processItems (w h : ℚ) : List Json → Except (List Char) (List (List ℚ) × List Json)
  | [] => .ok ([], [])
  | item :: rest =>
    match itemBox w h item with
    | .error e => .error e
    | .ok box =>
      match processItems w h rest with
      | .error e => .error e
      | .ok (bs, ls) => .ok (box :: bs, labelOf item :: ls)

/-- The value of one run of `process_gemini_auto`: the returned pair
`(result, info)` plus the number of `generate_content` invocations made
during the run (the code has a single, unconditional call site, so this
is always 1; it lets "no retry" be stated). -/
structure AutoOutcome (σ : Type) where
  result : Option σ
  info : List Char
  remoteCalls : Nat

/-- Embedding of `process_gemini_auto` (src/app_hq.py lines 83-132).  `remote` is the
behaviour of `model.generate_content` (`.error` = the call raised, with
`str(e)`; `.ok` = `response.text`); `parseJson` is the behaviour of
`json.loads`; `samCall` is the behaviour of `sam_model(image, bboxes=...)`
applied to the list of boxes.  Everything inside the `try` that raises is
caught and returned as `(None, str(e))`. -/
def process_gemini_auto {σ : Type} (width height : ℚ) (modelName : List Char)
    (remote : Except (List Char) (List Char))
    (parseJson : List Char → Except (List Char) Json)
    (samCall : List (List ℚ) → Except (List Char) σ) : AutoOutcome σ :=
  match remote with
  | .error e => ⟨none, e, 1⟩
  | .ok textResp =>
    match extractSpan textResp with
    | none => ⟨none, msgNoJsonPrefix ++ textResp.take 100 ++ msgDots, 1⟩
    | some span =>
      match parseJson span with
      | .error e => ⟨none, e, 1⟩
      | .ok jsonData =>
        match iterItems jsonData with
        | .error e => ⟨none, e, 1⟩
        | .ok items =>
          match processItems width height items with
          | .error e => ⟨none, e, 1⟩
          | .ok (bboxes, _labels) =>
            if bboxes.isEmpty then ⟨none, msgNoDetection, 1⟩
            else
              match samCall bboxes with
              | .error e => ⟨none, e, 1⟩
              | .ok r => ⟨some r, msgSuccess modelName, 1⟩

/-- What the auto tab displays for one outcome (lines 152-158): a result
shows the images and `st.success(info)`; a `None` result shows
`st.error(f"エラー: ...")` with the info appended. -/
inductive AutoDisplay where
  | shown (info : List Char)
  | errorBox (msg : List Char)

/-- Lines 152-158 of `main`: render one `process_gemini_auto` outcome. -/
def renderAuto {σ : Type} (out : AutoOutcome σ) : AutoDisplay :=
  match out.result with
  | some _ => .shown out.info
  | none => .errorBox (msgErrorPrefix ++ out.info)

/-- The auto tab's button handler (lines 145-158): validation gate first
(`not api_key or not selected_gemini_model`, empty strings are falsy),
then the remote pipeline.  Returns the display together with the number
of `generate_content` calls made. -/
def runAuto {σ : Type} (apiKey selectedModel : List Char) (width height : ℚ)
    (remote : Except (List Char) (List Char))
    (parseJson : List Char → Except (List Char) Json)
    (samCall : List (List ℚ) → Except (List Char) σ) : AutoDisplay × Nat :=
  if apiKey = [] ∨ selectedModel = [] then (.errorBox msgValidation, 0)
  else
    let out := process_gemini_auto width height selectedModel remote parseJson samCall
    (renderAuto out, out.remoteCalls)

/-- Line 164: `scale = canvas_width / width if width > canvas_width else 1.0`
with `canvas_width = 700`. -/
def canvasScale (w : Nat) : ℚ := if 700 < w then 700 / w else 1

/-- Line 165, `d_w = int(width * scale)`: the value is nonnegative, so
Python's truncation is the floor. -/
def dispW (w : Nat) : ℤ := ⌊(w : ℚ) * canvasScale w⌋

/-- Line 165, `d_h = int(height * scale)`. -/
def dispH (w h : Nat) : ℤ := ⌊(h : ℚ) * canvasScale w⌋

/-- Lines 183-190: map a rectangle drawn at display coordinates
`(left, top, rw, rh)` back to original-image pixels with the per-axis
factors `scale_x = width / d_w` and `scale_y = height / d_h`. -/
def manualPixelBox (w h : Nat) (left top rw rh : ℚ) : List ℚ :=
  let sx : ℚ := (w : ℚ) / ((dispW w : ℤ) : ℚ)
  let sy : ℚ := (h : ℚ) / ((dispH w h : ℤ) : ℚ)
  [left * sx, top * sy, (left + rw) * sx, (top + rh) * sy]

/-- One object of `canvas.json_data["objects"]`: the fields the code
reads from a drawn rectangle. -/
structure RectObj where
  left : ℚ
  top : ℚ
  width : ℚ
  height : ℚ

/-- Lines 181-190 of the manual tab: if the object list is non-empty,
the box sent to the segmentation model is computed from
`objects[-1]` alone; an empty list triggers nothing. -/
def manualSelectedBox (w h : Nat) (objects : List RectObj) : Option (List ℚ) :=
  match objects.getLast? with
  | none => none
  | some o => some (manualPixelBox w h o.left o.top o.width o.height)

/-- C1: a parsed entry whose `box_2d` is the normalized box
`[ymin, xmin, ymax, xmax]` (0-1000 scale) is converted, for an image of
size `(w, h)`, to the pixel box
`[xmin/1000*w, ymin/1000*h, xmax/1000*w, ymax/1000*h]` — x-components
scaled by the width, y-components by the height, reordered to
`[xmin, ymin, xmax, ymax]`; and in the spec's scenario (2000×1000 image,
`box_2d = [700, 0, 1000, 1000]` labelled Floor) the pixel box is
`[0, 700, 2000, 1000]`. -/
theorem c1_pixel_conversion (w h ymin xmin ymax xmax : ℚ)
    (fields : List (String × Json))
    (hbox : lookupField fields "box_2d" =
      some (.arr [.num ymin, .num xmin, .num ymax, .num xmax])) :
    itemBox w h (.obj fields) =
      .ok [xmin / 1000 * w, ymin / 1000 * h, xmax / 1000 * w, ymax / 1000 * h] ∧
    processItems 2000 1000
        [.obj [("label", .str "Floor"),
               ("box_2d", .arr [.num 700, .num 0, .num 1000, .num 1000])]] =
      .ok ([[0, 700, 2000, 1000]], [.str "Floor"]) := by
  constructor
  · simp [itemBox, hbox]
  · have h : lookupField
        [("label", Json.str "Floor"),
         ("box_2d", Json.arr [Json.num 700, Json.num 0, Json.num 1000, Json.num 1000])]
        "box_2d" = some (.arr [.num 700, .num 0, .num 1000, .num 1000]) := by
      simp [lookupField]
    simp [processItems, itemBox, h, labelOf, lookupField]

/-- Witness for C1 at the spec's scenario entry. -/
theorem c1_pixel_conversion_witness :
    itemBox 2000 1000
      (.obj [("label", .str "Floor"),
             ("box_2d", .arr [.num 700, .num 0, .num 1000, .num 1000])]) =
      .ok [0, 700, 2000, 1000] := by
  have h := (c1_pixel_conversion 2000 1000 700 0 1000 1000
    [("label", .str "Floor"),
     ("box_2d", .arr [.num 700, .num 0, .num 1000, .num 1000])] rfl).1
  norm_num at h
  exact h

/-- C6: for a well-formed source box (`xmin ≤ xmax`, `ymin ≤ ymax`) and
nonnegative image dimensions, the converted pixel box is ordered:
`xmin_px ≤ xmax_px` and `ymin_px ≤ ymax_px`. -/
theorem c6_converted_box_ordered (w h ymin xmin ymax xmax : ℚ)
    (fields : List (String × Json))
    (hbox : lookupField fields "box_2d" =
      some (.arr [.num ymin, .num xmin, .num ymax, .num xmax]))
    (hx : xmin ≤ xmax) (hy : ymin ≤ ymax) (hw : 0 ≤ w) (hh : 0 ≤ h) :
    ∃ x1 y1 x2 y2, itemBox w h (.obj fields) = .ok [x1, y1, x2, y2] ∧
      x1 ≤ x2 ∧ y1 ≤ y2 := by
  refine ⟨xmin / 1000 * w, ymin / 1000 * h, xmax / 1000 * w, ymax / 1000 * h, ?_, ?_, ?_⟩
  · simp [itemBox, hbox]
  · exact mul_le_mul_of_nonneg_right (by linarith) hw
  · exact mul_le_mul_of_nonneg_right (by linarith) hh

/-- Witness for C6 at a concrete well-formed box. -/
theorem c6_converted_box_ordered_witness :
    ∃ x1 y1 x2 y2,
      itemBox 640 480 (.obj [("box_2d", .arr [.num 100, .num 200, .num 300, .num 400])]) =
        .ok [x1, y1, x2, y2] ∧ x1 ≤ x2 ∧ y1 ≤ y2 :=
  c6_converted_box_ordered 640 480 100 200 300 400
    [("box_2d", .arr [.num 100, .num 200, .num 300, .num 400])]
    rfl (by norm_num) (by norm_num) (by norm_num) (by norm_num)

/-- Helper: the first occurrence of `c` in `l ++ c :: r` with `c ∉ l` is
at position `l.length`. -/
theorem firstIdx_not_mem_append (c : Char) (l r : List Char) (hl : c ∉ l) :
    firstIdx c (l ++ c :: r) = some l.length := by
  induction l with
  | nil => simp [firstIdx]
  | cons x xs ih =>
    have hx : ¬(x = c) := fun hxc => hl (by simp [hxc])
    have hxs : c ∉ xs := fun hm => hl (by simp [hm])
    simp [firstIdx, hx, ih hxs]

/-- Helper: the last occurrence of `c` in `l ++ c :: r` with `c ∉ r` is
at position `l.length`. -/
theorem lastIdx_not_mem_append (c : Char) (l r : List Char) (hr : c ∉ r) :
    lastIdx c (l ++ c :: r) = some l.length := by
  unfold lastIdx
  have h1 : (l ++ c :: r).reverse = r.reverse ++ c :: l.reverse := by
    simp
  rw [h1, firstIdx_not_mem_append c r.reverse l.reverse (by simpa using hr)]
  simp [Option.map]

/-- C3 counterexample: the text `"ok [1] x]"` contains exactly one
bracketed JSON array, `"[1]"`, but because the following prose contains a
`]` the greedy regex span runs to the last `]`, so the parser does not
extract that array. -/
theorem c3_counterexample :
    extractSpan ("ok [1] x]".toList) = some ("[1] x]".toList) ∧
      ("[1] x]".toList ≠ "[1]".toList) := by
  constructor
  · rfl
  · decide

/-- C3 amended: when the prose before the array contains no opening
bracket and the prose after it contains no closing bracket, the parser
extracts exactly the bracketed array; in general the extracted span runs
from the first opening bracket to the last closing bracket of the whole
text. -/
theorem c3_extract_array (pre a post : List Char)
    (hpre : '[' ∉ pre) (hpost : ']' ∉ post)
    (hhead : a.head? = some '[') (hlast : a.getLast? = some ']') :
    extractSpan (pre ++ a ++ post) = some a := by
  obtain ⟨a1, rfl⟩ : ∃ a1, a = '[' :: a1 := by
    cases a with
    | nil => simp at hhead
    | cons x xs => exact ⟨xs, by simp_all⟩
  obtain ⟨b, rfl⟩ : ∃ b, a1 = b ++ [']'] := by
    cases hb : a1.getLast? with
    | none =>
      rw [List.getLast?_eq_none_iff] at hb
      subst hb
      simp at hlast
    | some x =>
      have hx : x = ']' := by
        cases a1 with
        | nil => simp at hb
        | cons y ys =>
          rw [List.getLast?_cons_cons] at hlast
          rw [hlast] at hb
          exact (Option.some.inj hb).symm
      subst hx
      exact (List.getLast?_eq_some_iff.mp hb).imp fun w hw => hw
  have hfirst : firstIdx '[' (pre ++ ('[' :: (b ++ [']'])) ++ post) = some pre.length := by
    have : pre ++ ('[' :: (b ++ [']'])) ++ post = pre ++ '[' :: ((b ++ [']']) ++ post) := by
      simp
    rw [this, firstIdx_not_mem_append '[' pre _ hpre]
  have hlastb : lastIdx ']' (pre ++ ('[' :: (b ++ [']'])) ++ post) =
      some (pre.length + b.length + 1) := by
    have : pre ++ ('[' :: (b ++ [']'])) ++ post = (pre ++ '[' :: b) ++ ']' :: post := by
      simp
    rw [this, lastIdx_not_mem_append ']' (pre ++ '[' :: b) post hpost]
    simp
    omega
  rw [extractSpan, hfirst, hlastb]
  have hlt : pre.length < pre.length + b.length + 1 := by omega
  have harg : pre.length + b.length + 1 + 1 - pre.length = b.length + 2 := by omega
  have hdrop : ((pre ++ ('[' :: (b ++ [']'])) ++ post).drop pre.length) =
      '[' :: ((b ++ [']']) ++ post) := by
    have h2 : pre ++ ('[' :: (b ++ [']'])) ++ post = pre ++ '[' :: ((b ++ [']']) ++ post) := by
      simp
    rw [h2, List.drop_left]
  have htake : (('[' :: ((b ++ [']']) ++ post)).take (b.length + 2)) = '[' :: (b ++ [']']) := by
    have h3 : ('[' :: (b ++ [']'])).length = b.length + 2 := by simp
    have h4 : ('[' :: ((b ++ [']']) ++ post)) = ('[' :: (b ++ [']'])) ++ post := rfl
    rw [h4, ← h3, List.take_left]
  simp only [hlt, if_true, harg, hdrop]
  rw [htake]

/-- Witness for C3 amended at a concrete response with prose on both
sides. -/
theorem c3_extract_array_witness :
    extractSpan ("Sure: ".toList ++ "[1, 2]".toList ++ " done".toList) =
      some ("[1, 2]".toList) :=
  c3_extract_array "Sure: ".toList "[1, 2]".toList " done".toList
    (by decide) (by decide) (by decide) (by decide)

/-- C5: when the response text contains no bracketed span, the pipeline
returns no result, and its diagnostic message embeds exactly the first
`min 100 (length text)` characters of the raw response — at most 100. -/
theorem c5_no_array_failure {σ : Type} (w h : ℚ) (mn : List Char)
    (parseJson : List Char → Except (List Char) Json)
    (samCall : List (List ℚ) → Except (List Char) σ)
    (text : List Char) (hno : extractSpan text = none) :
    process_gemini_auto w h mn (.ok text) parseJson samCall =
      ⟨none, msgNoJsonPrefix ++ text.take 100 ++ msgDots, 1⟩ ∧
    (text.take 100).length ≤ 100 := by
  constructor
  · simp [process_gemini_auto, hno]
  · simp [List.length_take]

/-- Witness for C5 at a concrete bracket-free response. -/
theorem c5_no_array_failure_witness :
    process_gemini_auto (σ := Unit) 10 10 []
        (.ok "hello".toList) (fun _ => .error []) (fun _ => .error []) =
      ⟨none, msgNoJsonPrefix ++ "hello".toList.take 100 ++ msgDots, 1⟩ ∧
    ("hello".toList.take 100).length ≤ 100 :=
  c5_no_array_failure 10 10 [] (fun _ => .error []) (fun _ => .error [])
    "hello".toList rfl

/-- C4 counterexample: for a response whose extracted span parses to an
empty array, the auto tab reports the outcome through the error display
(`st.error`, line 158) with the message `"エラー: 検出対象なし"` — not
through an informational status. -/
theorem c4_counterexample :
    renderAuto (process_gemini_auto (σ := Unit) 2000 1000 "m".toList
        (.ok "Sure! Here is the result: [] done".toList)
        (fun s => if s = "[]".toList then .ok (.arr []) else .error [])
        (fun _ => .error [])) =
      .errorBox (msgErrorPrefix ++ msgNoDetection) := rfl

/-- C4 amended: a response whose extracted span parses to the empty array
yields the distinct outcome `(None, "検出対象なし")` — distinguishable
from the no-JSON parse failure, whose message starts with
`"JSONが見つかりませんでした。応答: "` — but `main` reports it through the
same error display as failures, prefixed `"エラー: "`, not as an
informational status. -/
theorem c4_empty_detection {σ : Type} (w h : ℚ) (mn : List Char)
    (parseJson : List Char → Except (List Char) Json)
    (samCall : List (List ℚ) → Except (List Char) σ)
    (text sp : List Char)
    (hsp : extractSpan text = some sp) (hparse : parseJson sp = .ok (.arr [])) :
    process_gemini_auto w h mn (.ok text) parseJson samCall =
      ⟨none, msgNoDetection, 1⟩ ∧
    (∀ t : List Char, msgNoDetection ≠ msgNoJsonPrefix ++ t) ∧
    renderAuto (process_gemini_auto w h mn (.ok text) parseJson samCall) =
      .errorBox (msgErrorPrefix ++ msgNoDetection) := by
  have hrun : process_gemini_auto w h mn (.ok text) parseJson samCall =
      ⟨none, msgNoDetection, 1⟩ := by
    simp [process_gemini_auto, hsp, hparse, iterItems, processItems]
  refine ⟨hrun, ?_, ?_⟩
  · intro t ht
    have hhead : (msgNoDetection.head? : Option Char) = (msgNoJsonPrefix ++ t).head? :=
      congrArg List.head? ht
    have hchar : ('検' : Char) = 'J' := by
      have h2 : (some '検' : Option Char) = some 'J' := hhead
      exact Option.some.inj h2
    exact absurd hchar (by decide)
  · rw [hrun]
    rfl

/-- Witness for C4 amended at the spec's empty-array scenario response. -/
theorem c4_empty_detection_witness :
    process_gemini_auto (σ := Unit) 2000 1000 "m".toList
        (.ok "Sure! Here is the result: [] done".toList)
        (fun s => if s = "[]".toList then .ok (.arr []) else .error [])
        (fun _ => .error []) =
      ⟨none, msgNoDetection, 1⟩ :=
  (c4_empty_detection 2000 1000 "m".toList
    (fun s => if s = "[]".toList then .ok (.arr []) else .error [])
    (fun _ => .error [])
    "Sure! Here is the result: [] done".toList "[]".toList
    rfl rfl).1

/-- C8: when the API key or the remote-model selection is the empty
string (Python falsiness of the unfilled widgets), the auto tab shows the
validation error and makes zero calls to the remote service. -/
theorem c8_validation_gate {σ : Type} (apiKey selectedModel : List Char)
    (w h : ℚ) (remote : Except (List Char) (List Char))
    (parseJson : List Char → Except (List Char) Json)
    (samCall : List (List ℚ) → Except (List Char) σ)
    (habs : apiKey = [] ∨ selectedModel = []) :
    runAuto apiKey selectedModel w h remote parseJson samCall =
      (.errorBox msgValidation, 0) := by
  simp [runAuto, habs]

/-- Witness for C8 with an empty API key. -/
theorem c8_validation_gate_witness :
    runAuto (σ := Unit) [] "gemini".toList 10 10 (.error [])
        (fun _ => .error []) (fun _ => .error []) =
      (.errorBox msgValidation, 0) :=
  c8_validation_gate [] "gemini".toList 10 10 (.error [])
    (fun _ => .error []) (fun _ => .error []) (Or.inl rfl)

/-- C9: whatever rectangles were drawn earlier, the manual tab's pixel
box is computed from the last object of the canvas list alone, and an
empty object list triggers no segmentation. -/
theorem c9_last_object (w h : Nat) (objs : List RectObj) (o : RectObj) :
    manualSelectedBox w h (objs ++ [o]) =
      some (manualPixelBox w h o.left o.top o.width o.height) ∧
    manualSelectedBox w h [] = none := by
  constructor
  · simp [manualSelectedBox, List.getLast?_concat]
  · rfl

/-- C7: each error condition of the automatic path — the remote call
raising (network/auth), the extracted span failing to parse as JSON, and
a parsed entry missing the `box_2d` key — yields no result and a single
message (the exception's string); and no run ever makes more than one
remote call, so nothing is retried. -/
theorem c7_error_conditions {σ : Type} (w h : ℚ) (mn : List Char)
    (parseJson : List Char → Except (List Char) Json)
    (samCall : List (List ℚ) → Except (List Char) σ) :
    (∀ e, process_gemini_auto w h mn (.error e) parseJson samCall = ⟨none, e, 1⟩) ∧
    (∀ text sp e, extractSpan text = some sp → parseJson sp = .error e →
      process_gemini_auto w h mn (.ok text) parseJson samCall = ⟨none, e, 1⟩) ∧
    (∀ fields, lookupField fields "box_2d" = none →
      itemBox w h (.obj fields) = .error msgKeyError) ∧
    (∀ text sp j items e, extractSpan text = some sp → parseJson sp = .ok j →
      iterItems j = .ok items → processItems w h items = .error e →
      process_gemini_auto w h mn (.ok text) parseJson samCall = ⟨none, e, 1⟩) ∧
    (∀ remote, (process_gemini_auto w h mn remote parseJson samCall).remoteCalls = 1) := by
  refine ⟨?_, ?_, ?_, ?_, ?_⟩
  · intro e
    rfl
  · intro text sp e hsp hp
    simp [process_gemini_auto, hsp, hp]
  · intro fields hf
    simp [itemBox, hf]
  · intro text sp j items e hsp hp hi hpi
    simp [process_gemini_auto, hsp, hp, hi, hpi]
  · intro remote
    unfold process_gemini_auto
    repeat' split
    all_goals rfl

/-- Witness for C7: a raising remote call is surfaced as its message. -/
theorem c7_error_conditions_witness :
    process_gemini_auto (σ := Unit) 10 10 [] (.error "403 quota".toList)
        (fun _ => .error []) (fun _ => .error []) =
      ⟨none, "403 quota".toList, 1⟩ :=
  (c7_error_conditions 10 10 [] (fun _ => .error []) (fun _ => .error [])).1
    "403 quota".toList

/-- C10: for every behaviour of the remote call, the JSON parsing and the
segmentation call, `process_gemini_auto` returns a value — either a
result with the success message or no result with some message (every
exception inside the `try` is caught); and an entry without a `label`
key gets the default label `"Object"`. -/
theorem c10_total_and_label_default {σ : Type} (w h : ℚ) (mn : List Char)
    (remote : Except (List Char) (List Char))
    (parseJson : List Char → Except (List Char) Json)
    (samCall : List (List ℚ) → Except (List Char) σ) :
    ((process_gemini_auto w h mn remote parseJson samCall).result = none ∨
      ∃ r, process_gemini_auto w h mn remote parseJson samCall =
        ⟨some r, msgSuccess mn, 1⟩) ∧
    (∀ fields, lookupField fields "label" = none →
      labelOf (.obj fields) = .str "Object") := by
  constructor
  · unfold process_gemini_auto
    repeat' split
    all_goals first
      | exact Or.inl rfl
      | exact Or.inr ⟨_, rfl⟩
  · intro fields hf
    simp [labelOf, hf]

/-- Witness for C10: a concrete run and a concrete label-free entry. -/
theorem c10_total_and_label_default_witness :
    labelOf (.obj [("box_2d", Json.null)]) = .str "Object" :=
  (c10_total_and_label_default (σ := Unit) 10 10 [] (.error [])
    (fun _ => .error []) (fun _ => .error [])).2
    [("box_2d", Json.null)] rfl

/-- C2 counterexample: for a 1400×999 image (display scale 1/2, but
`d_h = int(999 * 0.5) = 499`), the rectangle `(left=100, top=50,
width=200, height=100)` does not map to the claimed `(200, 100, 600, 300)`:
the y-factor is `999/499`, not `2`, so the top maps to `49950/499`. -/
theorem c2_counterexample :
    manualPixelBox 1400 999 100 50 200 100 ≠ [200, 100, 600, 300] := by
  have h1 : dispW 1400 = 700 := by norm_num [dispW, canvasScale]
  have h2 : dispH 1400 999 = 499 := by norm_num [dispH, canvasScale]
  simp only [manualPixelBox, h1, h2]
  norm_num

/-- C2 amended: with display scale `s = min(1, 700/width)`, the drawn
rectangle maps to `(left/s, top/s, (left+width)/s, (top+height)/s)`
whenever `height * s` is a (positive) whole number — the x-axis always
uses `1/s`, but the y-axis uses `height / int(height * s)`, which equals
`1/s` only when the truncation `int(height * s)` loses nothing. -/
theorem c2_canvas_mapping (w h : Nat) (l t rw rh : ℚ) (hw : 0 < w)
    (hk : ∃ k : Nat, 0 < k ∧ (h : ℚ) * canvasScale w = k) :
    manualPixelBox w h l t rw rh =
      [l / canvasScale w, t / canvasScale w,
       (l + rw) / canvasScale w, (t + rh) / canvasScale w] := by
  obtain ⟨k, hk0, hkeq⟩ := hk
  have hwq : (0 : ℚ) < (w : ℚ) := by exact_mod_cast hw
  have hs : 0 < canvasScale w := by
    unfold canvasScale
    split
    · positivity
    · norm_num
  have hsx : (w : ℚ) / ((dispW w : ℤ) : ℚ) = 1 / canvasScale w := by
    unfold dispW canvasScale
    by_cases h7 : 700 < w
    · simp only [h7, if_true]
      rw [show (w : ℚ) * (700 / (w : ℚ)) = 700 by field_simp]
      have hf : (⌊(700 : ℚ)⌋ : ℤ) = 700 := by norm_num
      rw [hf, one_div_div]
      norm_num
    · simp only [h7, if_false, mul_one, Int.floor_natCast]
      push_cast
      rw [div_self hwq.ne']
      norm_num
  have hkq : (0 : ℚ) < (k : ℚ) := by exact_mod_cast hk0
  have hsy : (h : ℚ) / ((dispH w h : ℤ) : ℚ) = 1 / canvasScale w := by
    unfold dispH
    rw [hkeq, Int.floor_natCast]
    push_cast
    rw [div_eq_div_iff hkq.ne' hs.ne', one_mul]
    exact hkeq
  simp only [manualPixelBox]
  rw [hsx, hsy]
  simp [mul_one_div, div_eq_mul_inv]

/-- Witness for C2 amended at the spec's scenario (width 1400, an even
height, so the truncation loses nothing). -/
theorem c2_canvas_mapping_witness :
    manualPixelBox 1400 1000 100 50 200 100 = [200, 100, 600, 300] := by
  have h := c2_canvas_mapping 1400 1000 100 50 200 100 (by norm_num)
    ⟨500, by norm_num [canvasScale]⟩
  rw [h]
  norm_num [canvasScale]

end RoomSeg
